import Mathlib

/-!
Shallow embedding of `pkg/identity/keystone/keystone.go` from
cloud-provider-openstack, together with the spec-described policy engine
components (Policy Loader, Decision Engine) that the repository wires in
but whose source is not part of this package.

External effects (gophercloud, client-go, file reads, JSON parsing) are
modelled as an environment record `Env` of oracle functions; the functions
of `keystone.go` are translated statement by statement on top of it.
-/

namespace Keystone

/-- Model of Go `error` values produced in `keystone.go`.  Plain
`errors.New`/propagated dependency errors are `.msg`; every
`fmt.Errorf` wrapping site in the file gets its own constructor so that
error provenance is visible in the model. -/
inductive KErr where
  /-- an `errors.New` message or an opaque error coming from a dependency -/
  | msg (s : String)
  /-- `fmt.Errorf("Unable to find identity API v3 version : %v", err)` -/
  | unableToFindV3 (inner : KErr)
  /-- `fmt.Errorf("Unsupported identity API version: %s", chosen.ID)` -/
  | unsupportedVersion (id : String)
  /-- `fmt.Errorf("failed to extract policy from policy file %s: %v", policyFile, err)` -/
  | policyFileError (file : String) (inner : KErr)
  /-- `fmt.Errorf("failed to parse policies defined in the configmap %s: %v", configMap, err)` -/
  | configMapError (name : String) (inner : KErr)
  /-- Modelled from the spec: `PolicyParseError` of the Policy Loader,
  identifying the offending rule's position (the loader itself is not in
  this package's source). -/
  | policyParseError (position : Nat) (reason : String)
deriving DecidableEq, Repr

/-- `utils.Version` of gophercloud: an identity API version candidate. -/
structure Version where
  ID : String
  Priority : Nat
  Suffix : String
deriving DecidableEq, Repr

/-- A certificate pool, as produced by `certutil.NewPool(caFile)`. -/
structure CertPool where
  certs : List String
deriving DecidableEq, Repr

/-- The custom HTTP transport built in `createKeystoneClient` from a CA
bundle: `netutil.SetOldTransportDefaults(&http.Transport{TLSClientConfig: config})`
with `config.RootCAs = roots`. -/
structure Transport where
  tlsRootCAs : CertPool
deriving DecidableEq, Repr

/-- `gophercloud.ProviderClient`: the fields `keystone.go` touches.
`transport = none` models the HTTP client's language-default transport
(the code only overwrites it when a custom one was built). -/
structure ProviderClient where
  identityEndpoint : String
  identityBase : String
  transport : Option Transport
deriving DecidableEq, Repr

/-- `gophercloud.ServiceClient`: embeds the provider client (so
`client.IdentityBase`/`client.IdentityEndpoint` reach the provider's
fields, as in Go's struct embedding) plus its own `Endpoint`. -/
structure ServiceClient where
  providerClient : ProviderClient
  endpoint : String
deriving DecidableEq, Repr

/-- `clientcmd.BuildConfigFromFlags` result (`*rest.Config`), abstract. -/
structure RestConfig where
  host : String
deriving DecidableEq, Repr

/-- `kubernetes.Clientset`, abstract. -/
structure Clientset where
  config : RestConfig
deriving DecidableEq, Repr

/-- A Kubernetes ConfigMap: its `Data` field is a Go `map[string]string`,
modelled as a total function with Go's zero-value ("") for absent keys. -/
structure ConfigMap where
  data : String → String

/-- Modelled from the spec (§3): resolved caller attributes.  The
Identity type is consumed by the Decision Engine, which is not part of
this package's source. -/
structure Identity where
  userName : String
  projectID : String
  projectName : String
  domainName : String
  roles : List String
deriving DecidableEq, Repr

/-- Modelled from the spec (§3): the operation under review.
`ns` is the spec's `namespace` field (Lean keyword). -/
structure Action where
  verb : String
  apiGroup : String
  resource : String
  ns : String
  resourceName : String
  nonResourcePath : String
deriving DecidableEq, Repr

/-- Modelled from the spec (§3): one policy rule — action-shaped
predicate fields (literal or the wildcard token) plus identity predicates
(`users`, `roles`, `projects`; empty set means "any") and whether the
rule is affirmative (`allow`). -/
structure PolicyRule where
  users : List String
  roles : List String
  projects : List String
  verb : String
  apiGroup : String
  resource : String
  ns : String
  resourceName : String
  nonResourcePath : String
  allow : Bool
deriving DecidableEq, Repr

/-- The `policyList` type that `keystone.go` stores in the `Authorizer`
(declared elsewhere in the repository): an ordered rule set. -/
abbrev policyList := List PolicyRule

/-- `Authenticator` as constructed by `NewKeystoneAuthenticator`. -/
structure Authenticator where
  authURL : String
  client : ServiceClient
deriving DecidableEq, Repr

/-- `Authorizer` as constructed by `NewKeystoneAuthorizer`. -/
structure Authorizer where
  authURL : String
  client : ServiceClient
  pl : policyList
deriving DecidableEq, Repr

/-- Oracle environment for every external call `keystone.go` makes:
gophercloud client construction and version negotiation, certificate
pool loading, client-go construction and ConfigMap retrieval, policy
file loading (`newFromFile`, defined elsewhere in the repository) and
JSON unmarshalling of policy text. -/
structure Env where
  /-- `openstack.NewClient(endpoint)` -/
  newClient : String → Except KErr ProviderClient
  /-- `utils.ChooseVersion(client, versions)`; returns the chosen
  version and the matching endpoint -/
  chooseVersion : ProviderClient → List Version → Except KErr (Version × String)
  /-- `certutil.NewPool(caFile)` -/
  newPool : String → Except KErr CertPool
  /-- `openstack.NewIdentityV3(provider, opts)`: resolves the identity
  endpoint the service client will use -/
  newIdentityV3 : ProviderClient → Except KErr String
  /-- `clientcmd.BuildConfigFromFlags("", kubeConfig)` -/
  buildConfigFromFlags : String → Except KErr RestConfig
  /-- `kubernetes.NewForConfig(cfg)` -/
  newForConfig : RestConfig → Except KErr Clientset
  /-- `client.Discovery().ServerVersion()` (major, minor) -/
  serverVersion : Clientset → Except KErr (String × String)
  /-- `client.CoreV1().ConfigMaps(namespace).Get(name, GetOptions{})` -/
  getConfigMap : Clientset → String → String → Except KErr ConfigMap
  /-- `newFromFile(policyFile)` (defined elsewhere in the repository) -/
  newFromFile : String → Except KErr policyList
  /-- `json.Unmarshal([]byte(text), &policy)` for the ConfigMap text -/
  unmarshalPolicies : String → Except KErr policyList

/-- The candidate version list of `createIdentityV3Provider`: only v3. -/
def identityV3Versions : List Version :=
  [{ ID := "v3", Priority := 30, Suffix := "/v3/" }]

/-- `if transport != nil { client.HTTPClient.Transport = transport }` -/
def applyTransport (c : ProviderClient) : Option Transport → ProviderClient
  | none => c
  | some t => { c with transport := some t }

/-- `createIdentityV3Provider` from keystone.go: build a client for the
endpoint, install the transport if one was supplied, negotiate the API
version over the single-candidate list, and accept only `"v3"`. -/
def createIdentityV3Provider (env : Env) (identityEndpoint : String)
    (transport : Option Transport) : Except KErr ProviderClient :=
  match env.newClient identityEndpoint with
  | .error e => .error e
  | .ok client0 =>
    let client := applyTransport client0 transport
    match env.chooseVersion client identityV3Versions with
    | .error e => .error (.unableToFindV3 e)
    | .ok (chosen, _) =>
      if chosen.ID = "v3" then .ok client
      else .error (.unsupportedVersion chosen.ID)

/-- `createIdentityV3Provider` with the `Unsupported identity API version`
default branch of its `switch` removed: a successful version negotiation
directly yields the client.  Used to state that the default branch is
unreachable when negotiation only ever picks from the candidate list. -/
def createIdentityV3ProviderNoVersionCheck (env : Env) (identityEndpoint : String)
    (transport : Option Transport) : Except KErr ProviderClient :=
  match env.newClient identityEndpoint with
  | .error e => .error e
  | .ok client0 =>
    let client := applyTransport client0 transport
    match env.chooseVersion client identityV3Versions with
    | .error e => .error (.unableToFindV3 e)
    | .ok _ => .ok client

/-- `createKubernetesClient` from keystone.go. -/
def createKubernetesClient (env : Env) (kubeConfig : String) :
    Except KErr Clientset :=
  match env.buildConfigFromFlags kubeConfig with
  | .error e => .error e
  | .ok cfg =>
    match env.newForConfig cfg with
    | .error e => .error e
    | .ok client =>
      match env.serverVersion client with
      | .error e => .error e
      | .ok _ => .ok client

/-- `createKeystoneClient` from keystone.go: reject an empty auth URL,
optionally build a CA transport, create the v3 provider, resolve the v3
identity service, then point `IdentityBase` and `Endpoint` at
`IdentityEndpoint`. -/
def createKeystoneClient (env : Env) (authURL : String) (caFile : String) :
    Except KErr ServiceClient :=
  if authURL = "" then .error (.msg "Auth URL is empty")
  else
    let transportE : Except KErr (Option Transport) :=
      if caFile ≠ "" then
        match env.newPool caFile with
        | .error e => .error e
        | .ok roots => .ok (some { tlsRootCAs := roots })
      else .ok none
    match transportE with
    | .error e => .error e
    | .ok transport =>
      match createIdentityV3Provider env authURL transport with
      | .error e => .error e
      | .ok provider =>
        match env.newIdentityV3 provider with
        | .error _ => .error (.msg "Failed to authenticate")
        | .ok resolvedEndpoint =>
          let client : ServiceClient :=
            { providerClient := provider, endpoint := resolvedEndpoint }
          -- client.IdentityBase = client.IdentityEndpoint
          -- client.Endpoint = client.IdentityEndpoint
          let client :=
            { client with
              providerClient :=
                { client.providerClient with
                  identityBase := client.providerClient.identityEndpoint },
              endpoint := client.providerClient.identityEndpoint }
          .ok client

/-- `NewKeystoneAuthenticator` from keystone.go. -/
def NewKeystoneAuthenticator (env : Env) (authURL : String) (caFile : String) :
    Except KErr Authenticator :=
  match createKeystoneClient env authURL caFile with
  | .error e => .error e
  | .ok client => .ok { authURL := authURL, client := client }

/-- `NewKeystoneAuthorizer` from keystone.go.  Returns `.ok none` for
Go's `(nil, nil)` (no policy source configured).  The trailing
`json.MarshalIndent` logging has no semantic effect and is omitted. -/
def NewKeystoneAuthorizer (env : Env) (authURL caFile policyFile configMap
    kubeConfig : String) : Except KErr (Option Authorizer) :=
  match createKeystoneClient env authURL caFile with
  | .error e => .error e
  | .ok client =>
    if policyFile ≠ "" then
      match env.newFromFile policyFile with
      | .error e => .error (.policyFileError policyFile e)
      | .ok policy =>
        .ok (some { authURL := authURL, client := client, pl := policy })
    else if configMap ≠ "" then
      match createKubernetesClient env kubeConfig with
      | .error e => .error e
      | .ok k8sClient =>
        match env.getConfigMap k8sClient "kube-system" configMap with
        | .error e => .error e
        | .ok cm =>
          match env.unmarshalPolicies (cm.data "policies") with
          | .error e => .error (.configMapError configMap e)
          | .ok policy =>
            .ok (some { authURL := authURL, client := client, pl := policy })
    else .ok none

/-! ### Spec-modelled policy engine

The Policy Loader and Decision Engine are wired in by `keystone.go`
(through `newFromFile` and the `Authorizer`) but their source is not in
this package; the definitions below are modelled from the spec. -/

/-- Modelled from the spec (§4.2): one raw record of the policy text,
after parsing, either a valid rule or a record whose validation failed
(`Validate()` on the missing Policy Rule Model). -/
inductive RawRule where
  | valid (r : PolicyRule)
  | invalid (reason : String)
deriving DecidableEq, Repr

/-- Whether a raw record passes validation. -/
def RawRule.isValid : RawRule → Bool
  | .valid _ => true
  | .invalid _ => false

/-- Modelled from the spec (§4.2): the Policy Loader walks the records
in order starting at `position`; the first validation failure aborts the
entire load with a `PolicyParseError` carrying that record's position. -/
def loadFrom (position : Nat) : List RawRule → Except KErr policyList
  | [] => .ok []
  | .valid r :: rest =>
    match loadFrom (position + 1) rest with
    | .error e => .error e
    | .ok tail => .ok (r :: tail)
  | .invalid reason :: _ => .error (.policyParseError position reason)

/-- Modelled from the spec (§4.2): `Load(rawText) -> (RuleSet, error)`,
all-or-nothing, order preserving (`newFromFile` is not in this
package's source). -/
def Load (records : List RawRule) : Except KErr policyList :=
  loadFrom 0 records

/-- Modelled from the spec (§4.3): decision outcomes. -/
inductive Decision where
  | allow
  | deny
  | noOpinion
deriving DecidableEq, Repr

/-- Modelled from the spec (§4.3): the engine's verdict with the index
of the matched rule, if any. -/
structure EvalResult where
  decision : Decision
  matchedRuleIndex : Option Nat
deriving DecidableEq, Repr

/-- Modelled from the spec (§4.3): `MalformedRequestError`. -/
inductive EvalError where
  | malformedRequest
deriving DecidableEq, Repr

/-- Modelled from the spec (§4.3): a rule field matches a request field
when it is the wildcard token (matching any non-empty value) or is
literally equal to it. -/
def fieldMatch (pat v : String) : Bool :=
  if pat = "*" then v ≠ "" else pat = v

/-- Modelled from the spec (§3): identity predicate — an empty set means
"any"; `roles` is a set-intersection test; `users`/`projects` are
membership tests (`projects` checked against the project name). -/
def identityMatches (r : PolicyRule) (id : Identity) : Bool :=
  (r.users = [] || id.userName ∈ r.users) &&
  (r.roles = [] || id.roles.any (· ∈ r.roles)) &&
  (r.projects = [] || id.projectName ∈ r.projects)

/-- Modelled from the spec (§3): the rule's conjunctive match predicate
over the action's fields and the identity predicates. -/
def ruleMatches (r : PolicyRule) (id : Identity) (a : Action) : Bool :=
  fieldMatch r.verb a.verb &&
  fieldMatch r.apiGroup a.apiGroup &&
  fieldMatch r.resource a.resource &&
  fieldMatch r.ns a.ns &&
  fieldMatch r.resourceName a.resourceName &&
  fieldMatch r.nonResourcePath a.nonResourcePath &&
  identityMatches r id

/-- The outcome a rule is configured with. -/
def ruleOutcome (r : PolicyRule) : Decision :=
  if r.allow then .allow else .deny

/-- Modelled from the spec (§4.3): an Action with both resource and
non-resource fields populated is malformed. -/
def malformedAction (a : Action) : Bool :=
  a.resource ≠ "" && a.nonResourcePath ≠ ""

/-- Modelled from the spec (§4.3): walk the rule set in order from index
`i`; return the first matching rule's configured outcome; on exhaustion
fall back to Deny or NoOpinion according to `denyByDefault`. -/
def evalFrom (id : Identity) (a : Action) (denyByDefault : Bool) :
    Nat → List PolicyRule → EvalResult
  | _, [] =>
    { decision := if denyByDefault then .deny else .noOpinion,
      matchedRuleIndex := none }
  | i, r :: rest =>
    if ruleMatches r id a then
      { decision := ruleOutcome r, matchedRuleIndex := some i }
    else evalFrom id a denyByDefault (i + 1) rest

/-- Modelled from the spec (§4.3): `Evaluate(identity, action, ruleSet)`
— reject malformed Actions before evaluation, else first-match-wins. -/
def Evaluate (id : Identity) (a : Action) (rules : List PolicyRule)
    (denyByDefault : Bool) : Except EvalError EvalResult :=
  if malformedAction a then .error .malformedRequest
  else .ok (evalFrom id a denyByDefault 0 rules)

/-! ### Concrete test fixtures (used by witnesses and counterexamples) -/

/-- A deny-everything rule: all-wildcard action fields, empty identity
sets, affirmative flag off. -/
def denyAllRule : PolicyRule :=
  { users := [], roles := [], projects := [],
    verb := "*", apiGroup := "*", resource := "*", ns := "*",
    resourceName := "*", nonResourcePath := "", allow := false }

/-- A rule allowing `get` on `pods` for anyone. -/
def allowGetPodsRule : PolicyRule :=
  { users := [], roles := [], projects := [],
    verb := "get", apiGroup := "*", resource := "pods", ns := "*",
    resourceName := "*", nonResourcePath := "", allow := true }

/-- A fully populated `get pods` action. -/
def getPodsAction : Action :=
  { verb := "get", apiGroup := "core", resource := "pods",
    ns := "default", resourceName := "pod1", nonResourcePath := "" }

/-- A concrete resolved identity. -/
def aliceIdentity : Identity :=
  { userName := "alice", projectID := "pid-1", projectName := "proj-1",
    domainName := "default", roles := ["member"] }

/-- A concrete environment in which every external call succeeds (except
on the designated bad inputs), used to instantiate hypotheses at
concrete values. -/
def testEnv : Env :=
  { newClient := fun e =>
      .ok { identityEndpoint := e, identityBase := e ++ "/", transport := none },
    chooseVersion := fun _ vs =>
      match vs with
      | [] => .error (.msg "no version candidates")
      | v :: _ => .ok (v, "http://keystone:5000/v3/"),
    newPool := fun f =>
      if f = "bad.ca" then .error (.msg "cannot read CA file")
      else .ok { certs := [f] },
    newIdentityV3 := fun p => .ok (p.identityEndpoint ++ "/v3/"),
    buildConfigFromFlags := fun k => .ok { host := k },
    newForConfig := fun c => .ok { config := c },
    serverVersion := fun _ => .ok ("1", "21"),
    getConfigMap := fun _ ns n =>
      if ns = "kube-system" && n = "policy-cm" then
        .ok { data := fun k => if k = "policies" then "goodjson" else "" }
      else if ns = "kube-system" && n = "bad-cm" then
        .ok { data := fun k => if k = "policies" then "notjson" else "" }
      else .error (.msg "configmap not found"),
    newFromFile := fun f =>
      if f = "bad.json" then .error (.msg "invalid policy json")
      else .ok [denyAllRule],
    unmarshalPolicies := fun s =>
      if s = "goodjson" then .ok [allowGetPodsRule]
      else .error (.msg "json unmarshal error") }

/-- The service client `createKeystoneClient testEnv "http://ks" ""`
produces. -/
def testClient : ServiceClient :=
  { providerClient :=
      { identityEndpoint := "http://ks", identityBase := "http://ks",
        transport := none },
    endpoint := "http://ks" }

/-- `testEnv` with all Kubernetes-related oracles replaced by failing or
different ones; the Keystone-client and policy-file oracles agree with
`testEnv`. -/
def testEnvTwo : Env :=
  { testEnv with
    buildConfigFromFlags := fun _ => .error (.msg "no kubeconfig"),
    newForConfig := fun _ => .error (.msg "cannot build clientset"),
    serverVersion := fun _ => .error (.msg "cluster unreachable"),
    getConfigMap := fun _ _ _ => .error (.msg "cluster unreachable"),
    unmarshalPolicies := fun _ => .error (.msg "different json parser") }

/-- A ConfigMap oracle that agrees with `testEnv.getConfigMap` only on
the value under the `policies` key of `kube-system/policy-cm` and
differs everywhere else. -/
def altGetConfigMap : Clientset → String → String → Except KErr ConfigMap :=
  fun _ ns n =>
    if ns = "kube-system" && n = "policy-cm" then
      .ok { data := fun k => if k = "policies" then "goodjson" else "other-value" }
    else .error (.msg "not found in alternate cluster")

/-! ### Helper lemmas -/

/-- `createKeystoneClient` only consults the Keystone-side oracles:
environments agreeing on `newClient`, `chooseVersion`, `newPool` and
`newIdentityV3` produce identical clients. -/
theorem createKeystoneClient_congr (env₁ env₂ : Env)
    (hnc : env₁.newClient = env₂.newClient)
    (hcv : env₁.chooseVersion = env₂.chooseVersion)
    (hnp : env₁.newPool = env₂.newPool)
    (hni : env₁.newIdentityV3 = env₂.newIdentityV3)
    (authURL caFile : String) :
    createKeystoneClient env₁ authURL caFile =
      createKeystoneClient env₂ authURL caFile := by
  obtain ⟨nc₁, cv₁, np₁, ni₁, bc₁, nf₁, sv₁, gc₁, nff₁, up₁⟩ := env₁
  obtain ⟨nc₂, cv₂, np₂, ni₂, bc₂, nf₂, sv₂, gc₂, nff₂, up₂⟩ := env₂
  simp only at hnc hcv hnp hni
  subst hnc hcv hnp hni
  rfl

/-- The Policy Loader walking a prefix of valid records reaches the
first invalid record and fails with its absolute position. -/
theorem loadFrom_append_invalid (reason : String) (post : List RawRule) :
    ∀ (pre : List RawRule) (n : Nat),
      (∀ r ∈ pre, r.isValid = true) →
      loadFrom n (pre ++ .invalid reason :: post) =
        .error (.policyParseError (n + pre.length) reason) := by
  intro pre
  induction pre with
  | nil => intro n _; simp [loadFrom]
  | cons hd tl ih =>
    intro n hvalid
    cases hd with
    | valid r =>
      have htl : ∀ r ∈ tl, r.isValid = true := fun r hr =>
        hvalid r (List.mem_cons_of_mem _ hr)
      simp only [List.cons_append, loadFrom, List.append_eq, ih (n + 1) htl,
        List.length_cons]
      have harith₂ : n + 1 + tl.length = n + (tl.length + 1) := by omega
      rw [harith₂]
    | invalid reason₂ =>
      exact absurd (hvalid _ (List.mem_cons_self _ _)) (by simp [RawRule.isValid])

/-- The Decision Engine's scan from index `n`: rules before the first
match are skipped, and the first matching rule decides, at its absolute
index. -/
theorem evalFrom_first_match (id : Identity) (a : Action) (dd : Bool)
    (r : PolicyRule) (post : List PolicyRule) :
    ∀ (pre : List PolicyRule) (n : Nat),
      (∀ p ∈ pre, ruleMatches p id a = false) →
      ruleMatches r id a = true →
      evalFrom id a dd n (pre ++ r :: post) =
        { decision := ruleOutcome r, matchedRuleIndex := some (n + pre.length) } := by
  intro pre
  induction pre with
  | nil => intro n _ hr; simp [evalFrom, hr]
  | cons hd tl ih =>
    intro n hpre hr
    have hhd : ruleMatches hd id a = false := hpre hd (List.mem_cons_self _ _)
    have htl : ∀ p ∈ tl, ruleMatches p id a = false := fun p hp =>
      hpre p (List.mem_cons_of_mem _ hp)
    simp only [List.cons_append, evalFrom, hhd, Bool.false_eq_true, if_false,
      List.append_eq, ih (n + 1) htl hr, List.length_cons]
    have harith : n + 1 + tl.length = n + (tl.length + 1) := by omega
    rw [harith]

/-! ### Claims -/

/-- Claim C3: an empty `authURL` is rejected by `createKeystoneClient`
with the `Auth URL is empty` error before any other work, and both
`NewKeystoneAuthenticator` and `NewKeystoneAuthorizer` propagate exactly
that error (returning no client/result), for every `caFile` and every
environment. -/
theorem empty_authURL_is_fatal (env : Env) (caFile : String) :
    createKeystoneClient env "" caFile = .error (.msg "Auth URL is empty") ∧
    NewKeystoneAuthenticator env "" caFile = .error (.msg "Auth URL is empty") ∧
    ∀ policyFile configMap kubeConfig : String,
      NewKeystoneAuthorizer env "" caFile policyFile configMap kubeConfig =
        .error (.msg "Auth URL is empty") := by
  refine ⟨rfl, rfl, fun _ _ _ => rfl⟩

/-- Witness for C3 at concrete inputs. -/
theorem empty_authURL_is_fatal_witness :
    NewKeystoneAuthorizer testEnv "" "ca.pem" "good.json" "policy-cm" "kc" =
      .error (.msg "Auth URL is empty") :=
  (empty_authURL_is_fatal testEnv "ca.pem").2.2 "good.json" "policy-cm" "kc"

/-- Claim C2: with both `policyFile` and `configMap` empty (and the
Keystone client successfully created), `NewKeystoneAuthorizer` returns
`(nil, nil)` — no Authorizer and no error — the authorization-disabled
mode. -/
theorem no_policy_source_disables_authorization (env : Env)
    (authURL caFile kubeConfig : String) (client : ServiceClient)
    (h : createKeystoneClient env authURL caFile = .ok client) :
    NewKeystoneAuthorizer env authURL caFile "" "" kubeConfig = .ok none := by
  unfold NewKeystoneAuthorizer
  rw [h]
  simp

/-- Witness for C2 at concrete inputs. -/
theorem no_policy_source_disables_authorization_witness :
    NewKeystoneAuthorizer testEnv "http://ks" "" "" "" "kc" = .ok none :=
  no_policy_source_disables_authorization testEnv "http://ks" "" "kc" testClient rfl

/-- Claim C1 counterexample: a call with BOTH `policyFile` and
`configMap` non-empty succeeds and returns an Authorizer (built from the
policy file) instead of failing. -/
theorem conflicting_policy_sources_counterexample :
    "good.json" ≠ "" ∧ "policy-cm" ≠ "" ∧
    NewKeystoneAuthorizer testEnv "http://ks" "" "good.json" "policy-cm" "kc" =
      .ok (some { authURL := "http://ks", client := testClient,
                  pl := [denyAllRule] }) := by
  refine ⟨by decide, by decide, rfl⟩

/-- Claim C1 (amended): when both `policyFile` and `configMap` are
non-empty, `NewKeystoneAuthorizer` does not fail on the conflict; it
takes the `policyFile` branch, so the result is exactly the result of
the same call with `configMap` cleared. -/
theorem conflicting_policy_sources_policyFile_wins (env : Env)
    (authURL caFile policyFile configMap kubeConfig : String)
    (hpf : policyFile ≠ "") :
    NewKeystoneAuthorizer env authURL caFile policyFile configMap kubeConfig =
      NewKeystoneAuthorizer env authURL caFile policyFile "" kubeConfig := by
  unfold NewKeystoneAuthorizer
  cases createKeystoneClient env authURL caFile <;> simp [hpf]

/-- Witness for the amended C1 at concrete inputs. -/
theorem conflicting_policy_sources_policyFile_wins_witness :
    NewKeystoneAuthorizer testEnv "http://ks" "" "good.json" "policy-cm" "kc" =
      NewKeystoneAuthorizer testEnv "http://ks" "" "good.json" "" "kc" :=
  conflicting_policy_sources_policyFile_wins testEnv "http://ks" "" "good.json"
    "policy-cm" "kc" (by decide)

/-- Claim C4: in the configMap branch the policy text comes exclusively
from the ConfigMap of the given name in the `kube-system` namespace,
under the key `policies`.  First conjunct: replacing the ConfigMap
oracle with any oracle that agrees only on the `kube-system`/`configMap`
lookup, and within it only on the value under `policies`, leaves the
result unchanged.  Second conjunct: when all lookups succeed, the
returned Authorizer carries exactly the rules unmarshalled from that
value. -/
theorem configMap_source_location (env : Env)
    (g : Clientset → String → String → Except KErr ConfigMap)
    (authURL caFile configMap kubeConfig : String)
    (hcm : configMap ≠ "")
    (hagree : ∀ c : Clientset,
      match env.getConfigMap c "kube-system" configMap,
            g c "kube-system" configMap with
      | .error e₁, .error e₂ => e₁ = e₂
      | .ok cm₁, .ok cm₂ => cm₁.data "policies" = cm₂.data "policies"
      | _, _ => False) :
    (NewKeystoneAuthorizer env authURL caFile "" configMap kubeConfig =
      NewKeystoneAuthorizer { env with getConfigMap := g }
        authURL caFile "" configMap kubeConfig) ∧
    (∀ (client : ServiceClient) (k8s : Clientset) (cm : ConfigMap)
       (policy : policyList),
       createKeystoneClient env authURL caFile = .ok client →
       createKubernetesClient env kubeConfig = .ok k8s →
       env.getConfigMap k8s "kube-system" configMap = .ok cm →
       env.unmarshalPolicies (cm.data "policies") = .ok policy →
       NewKeystoneAuthorizer env authURL caFile "" configMap kubeConfig =
         .ok (some { authURL := authURL, client := client, pl := policy })) := by
  constructor
  · unfold NewKeystoneAuthorizer
    have hks : createKeystoneClient { env with getConfigMap := g } authURL caFile =
        createKeystoneClient env authURL caFile :=
      createKeystoneClient_congr _ _ rfl rfl rfl rfl _ _
    rw [hks]
    cases createKeystoneClient env authURL caFile with
    | error e => rfl
    | ok client =>
      simp only [hcm, if_true, ne_eq, not_true_eq_false, if_false, ite_not,
        if_pos rfl]
      have hkc : createKubernetesClient { env with getConfigMap := g } kubeConfig =
          createKubernetesClient env kubeConfig := rfl
      rw [hkc]
      cases createKubernetesClient env kubeConfig with
      | error e => rfl
      | ok k8s =>
        dsimp only
        have h := hagree k8s
        cases h₁ : env.getConfigMap k8s "kube-system" configMap with
        | error e₁ =>
          cases h₂ : g k8s "kube-system" configMap with
          | error e₂ => rw [h₁, h₂] at h; dsimp only at h ⊢; rw [h]
          | ok cm₂ => rw [h₁, h₂] at h; exact absurd h (by simp)
        | ok cm₁ =>
          cases h₂ : g k8s "kube-system" configMap with
          | error e₂ => rw [h₁, h₂] at h; exact absurd h (by simp)
          | ok cm₂ => rw [h₁, h₂] at h; dsimp only at h ⊢; rw [h]
  · intro client k8s cm policy h₁ h₂ h₃ h₄
    unfold NewKeystoneAuthorizer
    rw [h₁]
    simp only [hcm, if_true, ne_eq, not_true_eq_false, if_false, ite_not,
      if_pos rfl]
    rw [h₂]
    dsimp only
    rw [h₃]
    dsimp only
    rw [h₄]

/-- Witness for C4 at concrete inputs. -/
theorem configMap_source_location_witness :
    NewKeystoneAuthorizer testEnv "http://ks" "" "" "policy-cm" "kc" =
      NewKeystoneAuthorizer { testEnv with getConfigMap := altGetConfigMap }
        "http://ks" "" "" "policy-cm" "kc" :=
  (configMap_source_location testEnv altGetConfigMap "http://ks" "" "policy-cm"
    "kc" (by decide) (fun _ => rfl)).1

/-- Claim C6: with a non-empty `policyFile`, the result of
`NewKeystoneAuthorizer` is determined by `authURL`, `caFile`,
`policyFile` and the Keystone-side and policy-file oracles alone: the
`configMap` and `kubeConfig` arguments and every Kubernetes-side oracle
(`buildConfigFromFlags`, `newForConfig`, `serverVersion`,
`getConfigMap`, `unmarshalPolicies`) may differ arbitrarily without
changing the result — no Kubernetes client is consulted. -/
theorem policyFile_branch_ignores_kubernetes (env₁ env₂ : Env)
    (hnc : env₁.newClient = env₂.newClient)
    (hcv : env₁.chooseVersion = env₂.chooseVersion)
    (hnp : env₁.newPool = env₂.newPool)
    (hni : env₁.newIdentityV3 = env₂.newIdentityV3)
    (hnf : env₁.newFromFile = env₂.newFromFile)
    (authURL caFile policyFile cm₁ kc₁ cm₂ kc₂ : String)
    (hpf : policyFile ≠ "") :
    NewKeystoneAuthorizer env₁ authURL caFile policyFile cm₁ kc₁ =
      NewKeystoneAuthorizer env₂ authURL caFile policyFile cm₂ kc₂ := by
  unfold NewKeystoneAuthorizer
  rw [createKeystoneClient_congr env₁ env₂ hnc hcv hnp hni authURL caFile]
  cases createKeystoneClient env₂ authURL caFile with
  | error e => rfl
  | ok client => simp [hpf, hnf]

/-- Witness for C6 at concrete inputs. -/
theorem policyFile_branch_ignores_kubernetes_witness :
    NewKeystoneAuthorizer testEnv "http://ks" "" "good.json" "policy-cm" "kc" =
      NewKeystoneAuthorizer testEnvTwo "http://ks" "" "good.json" "other-cm" "kc2" :=
  policyFile_branch_ignores_kubernetes testEnv testEnvTwo rfl rfl rfl rfl rfl
    "http://ks" "" "good.json" "policy-cm" "kc" "other-cm" "kc2" (by decide)

/-- Claim C5: policy loading is all-or-nothing with positional
diagnostics.  First conjunct: a failing policy-file load makes
`NewKeystoneAuthorizer` return the wrapping error and no Authorizer.
Second conjunct: a failing JSON unmarshal of the ConfigMap's `policies`
value likewise aborts with the wrapping error and no Authorizer.  Third
conjunct (spec-modelled, the loader's source is not in this package):
`Load` aborts at the first invalid record with a `PolicyParseError`
carrying that record's position, so no partially parsed rule list is
ever produced. -/
theorem policy_load_all_or_nothing :
    (∀ (env : Env) (authURL caFile policyFile configMap kubeConfig : String)
       (client : ServiceClient) (e : KErr),
       createKeystoneClient env authURL caFile = .ok client →
       policyFile ≠ "" →
       env.newFromFile policyFile = .error e →
       NewKeystoneAuthorizer env authURL caFile policyFile configMap kubeConfig =
         .error (.policyFileError policyFile e)) ∧
    (∀ (env : Env) (authURL caFile configMap kubeConfig : String)
       (client : ServiceClient) (k8s : Clientset) (cm : ConfigMap) (e : KErr),
       createKeystoneClient env authURL caFile = .ok client →
       configMap ≠ "" →
       createKubernetesClient env kubeConfig = .ok k8s →
       env.getConfigMap k8s "kube-system" configMap = .ok cm →
       env.unmarshalPolicies (cm.data "policies") = .error e →
       NewKeystoneAuthorizer env authURL caFile "" configMap kubeConfig =
         .error (.configMapError configMap e)) ∧
    (∀ (pre post : List RawRule) (reason : String),
       (∀ r ∈ pre, r.isValid = true) →
       Load (pre ++ .invalid reason :: post) =
         .error (.policyParseError pre.length reason)) := by
  refine ⟨?_, ?_, ?_⟩
  · intro env authURL caFile policyFile configMap kubeConfig client e h₁ hpf h₂
    unfold NewKeystoneAuthorizer
    rw [h₁]
    dsimp only
    rw [if_pos hpf, h₂]
  · intro env authURL caFile configMap kubeConfig client k8s cm e h₁ hcm h₂ h₃ h₄
    unfold NewKeystoneAuthorizer
    rw [h₁]
    simp only [hcm, if_true, ne_eq, not_true_eq_false, if_false, ite_not,
      if_pos rfl]
    rw [h₂]
    dsimp only
    rw [h₃]
    dsimp only
    rw [h₄]
  · intro pre post reason hvalid
    unfold Load
    have := loadFrom_append_invalid reason post pre 0 hvalid
    simpa using this

/-- Witness for C5 at concrete inputs. -/
theorem policy_load_all_or_nothing_witness :
    (NewKeystoneAuthorizer testEnv "http://ks" "" "bad.json" "" "kc" =
      .error (.policyFileError "bad.json" (.msg "invalid policy json"))) ∧
    (NewKeystoneAuthorizer testEnv "http://ks" "" "" "bad-cm" "kc" =
      .error (.configMapError "bad-cm" (.msg "json unmarshal error"))) ∧
    (Load [.valid denyAllRule, .invalid "bad verb", .valid allowGetPodsRule] =
      .error (.policyParseError 1 "bad verb")) :=
  ⟨policy_load_all_or_nothing.1 testEnv "http://ks" "" "bad.json" "" "kc"
      testClient (.msg "invalid policy json") rfl (by decide) rfl,
   policy_load_all_or_nothing.2.1 testEnv "http://ks" "" "bad-cm" "kc"
      testClient { config := { host := "kc" } }
      { data := fun k => if k = "policies" then "notjson" else "" }
      (.msg "json unmarshal error") rfl (by decide) rfl rfl rfl,
   policy_load_all_or_nothing.2.2 [.valid denyAllRule]
      [.valid allowGetPodsRule] "bad verb" (by simp [RawRule.isValid])⟩

/-- Claim C7: `caFile` is optional.  First conjunct: with `caFile`
empty, the CA-pool oracle is never consulted (replacing it changes
nothing).  Second conjunct: with `caFile` empty the provider keeps the
transport `openstack.NewClient` gave it — no custom TLS transport is
installed.  Third conjunct: with a non-empty `caFile` whose pool
construction fails, `createKeystoneClient` returns exactly that error
and no client (for every `authURL` that passes the preceding emptiness
check). -/
theorem caFile_optional :
    (∀ (env : Env) (p : String → Except KErr CertPool) (authURL : String),
       createKeystoneClient { env with newPool := p } authURL "" =
         createKeystoneClient env authURL "") ∧
    (∀ (env : Env) (authURL : String) (c0 : ProviderClient)
       (client : ServiceClient),
       env.newClient authURL = .ok c0 →
       createKeystoneClient env authURL "" = .ok client →
       client.providerClient.transport = c0.transport) ∧
    (∀ (env : Env) (authURL caFile : String) (e : KErr),
       authURL ≠ "" → caFile ≠ "" →
       env.newPool caFile = .error e →
       createKeystoneClient env authURL caFile = .error e) := by
  refine ⟨?_, ?_, ?_⟩
  · intro env p authURL
    rfl
  · intro env authURL c0 client hnc h
    unfold createKeystoneClient at h
    by_cases hURL : authURL = ""
    · rw [if_pos hURL] at h; exact absurd h (by simp)
    · rw [if_neg hURL] at h
      simp only [ne_eq, not_true_eq_false, if_false] at h
      unfold createIdentityV3Provider at h
      rw [hnc] at h
      dsimp only [applyTransport] at h
      cases hcv : env.chooseVersion c0 identityV3Versions with
      | error e => rw [hcv] at h; exact absurd h (by simp)
      | ok vs =>
        obtain ⟨chosen, s⟩ := vs
        rw [hcv] at h
        dsimp only at h
        by_cases hid : chosen.ID = "v3"
        · rw [if_pos hid] at h
          dsimp only at h
          cases hni : env.newIdentityV3 c0 with
          | error e => rw [hni] at h; exact absurd h (by simp)
          | ok ep =>
            rw [hni] at h
            dsimp only at h
            cases h
            rfl
        · rw [if_neg hid] at h
          exact absurd h (by simp)
  · intro env authURL caFile e hURL hca hpool
    unfold createKeystoneClient
    rw [if_neg hURL]
    simp only [hca, if_true, ne_eq, not_false_eq_true, ite_true]
    rw [hpool]

/-- Witness for C7 at concrete inputs. -/
theorem caFile_optional_witness :
    (createKeystoneClient { testEnv with newPool := fun _ => .error (.msg "x") }
        "http://ks" "" = createKeystoneClient testEnv "http://ks" "") ∧
    (testClient.providerClient.transport =
      Option.none (α := Transport)) ∧
    (createKeystoneClient testEnv "http://ks" "bad.ca" =
      .error (.msg "cannot read CA file")) :=
  ⟨caFile_optional.1 testEnv (fun _ => .error (.msg "x")) "http://ks",
   caFile_optional.2.1 testEnv "http://ks"
      { identityEndpoint := "http://ks", identityBase := "http://ks/",
        transport := none } testClient rfl rfl,
   caFile_optional.2.2 testEnv "http://ks" "bad.ca" (.msg "cannot read CA file")
      (by decide) (by decide) rfl⟩

/-- Claim C8: first-match-wins evaluation (spec-modelled, the Decision
Engine's source is not in this package).  First conjunct: for every
identity, well-formed action and rule set split as
`pre ++ r :: post` where no rule of `pre` matches and `r` matches,
`Evaluate` returns `r`'s configured outcome at `r`'s index.  The two
remaining conjuncts are the spec's concrete cases: `[DenyAll,
AllowGetPods]` decides Deny on `get pods` and the reversed set decides
Allow. -/
theorem evaluate_first_match_wins :
    (∀ (id : Identity) (a : Action) (dd : Bool)
       (pre post : List PolicyRule) (r : PolicyRule),
       malformedAction a = false →
       (∀ p ∈ pre, ruleMatches p id a = false) →
       ruleMatches r id a = true →
       Evaluate id a (pre ++ r :: post) dd =
         .ok { decision := ruleOutcome r,
               matchedRuleIndex := some pre.length }) ∧
    (Evaluate aliceIdentity getPodsAction [denyAllRule, allowGetPodsRule] false =
      .ok { decision := .deny, matchedRuleIndex := some 0 }) ∧
    (Evaluate aliceIdentity getPodsAction [allowGetPodsRule, denyAllRule] false =
      .ok { decision := .allow, matchedRuleIndex := some 0 }) := by
  refine ⟨?_, rfl, rfl⟩
  intro id a dd pre post r hwf hpre hr
  unfold Evaluate
  rw [hwf]
  simp only [Bool.false_eq_true, if_false]
  have := evalFrom_first_match id a dd r post pre 0 hpre hr
  simpa using this

/-- Witness for C8 at concrete inputs. -/
theorem evaluate_first_match_wins_witness :
    Evaluate aliceIdentity getPodsAction
        (([] : List PolicyRule) ++ denyAllRule :: [allowGetPodsRule]) false =
      .ok { decision := ruleOutcome denyAllRule,
            matchedRuleIndex := some (List.length ([] : List PolicyRule)) } :=
  evaluate_first_match_wins.1 aliceIdentity getPodsAction false []
    [allowGetPodsRule] denyAllRule (by decide) (by simp) (by decide)

/-- Claim C10: only identity API v3 is accepted.  Under the contract
that version negotiation only ever picks a candidate from the supplied
list, every successful negotiation over `identityV3Versions` yields the
ID `"v3"`, and `createIdentityV3Provider` coincides with the variant
whose `Unsupported identity API version` default branch is removed —
that branch is unreachable. -/
theorem identity_v3_only (env : Env)
    (hmem : ∀ (c : ProviderClient) (vs : List Version) (ch : Version)
       (s : String), env.chooseVersion c vs = .ok (ch, s) → ch ∈ vs) :
    (∀ (c : ProviderClient) (ch : Version) (s : String),
       env.chooseVersion c identityV3Versions = .ok (ch, s) → ch.ID = "v3") ∧
    (∀ (identityEndpoint : String) (transport : Option Transport),
       createIdentityV3Provider env identityEndpoint transport =
         createIdentityV3ProviderNoVersionCheck env identityEndpoint transport) := by
  have hID : ∀ (c : ProviderClient) (ch : Version) (s : String),
      env.chooseVersion c identityV3Versions = .ok (ch, s) → ch.ID = "v3" := by
    intro c ch s h
    have := hmem c identityV3Versions ch s h
    simp only [identityV3Versions, List.mem_singleton] at this
    rw [this]
  refine ⟨hID, ?_⟩
  intro identityEndpoint transport
  unfold createIdentityV3Provider createIdentityV3ProviderNoVersionCheck
  cases env.newClient identityEndpoint with
  | error e => rfl
  | ok client0 =>
    dsimp only
    cases hcv : env.chooseVersion (applyTransport client0 transport)
        identityV3Versions with
    | error e => rfl
    | ok vs =>
      obtain ⟨chosen, s⟩ := vs
      dsimp only
      rw [if_pos (hID _ _ _ hcv)]

/-- Witness for C10 at concrete inputs. -/
theorem identity_v3_only_witness :
    createIdentityV3Provider testEnv "http://ks" none =
      createIdentityV3ProviderNoVersionCheck testEnv "http://ks" none :=
  (identity_v3_only testEnv (by
      intro c vs ch s h
      cases vs with
      | nil => exact absurd h (by simp [testEnv])
      | cons v tl =>
        simp only [testEnv, Except.ok.injEq, Prod.mk.injEq] at h
        exact h.1 ▸ List.mem_cons_self _ _)).2 "http://ks" none

end Keystone
